import Mathlib

/-!
Verification of the `optimal_power` function from
`examples/notebooks/WWW/optimal_power_gaussian_channel_BV4.62.ipynb`.

The notebook defines a single function that builds a convex optimization
problem out of symbolic cvxpy expressions and delegates solving to an
external solver.  We embed the symbolic expression layer as an inductive
AST, record the observable side effects of a call (printing to stdout,
creating variables/parameters, building the problem object, invoking the
solver) as an effect trace, and treat the external solver as an arbitrary
function from problems to solve results.  Python floats that the glue code
merely passes around are modelled as rationals; the scalar `np.nan`
sentinel is a dedicated constructor.  The mathematical content of the
kl_div reformulation is treated separately over the reals.
-/

/-- Symbolic cvxpy expressions as built by the notebook: variables and
parameters carry the shape they were created with (`cp.Variable(shape=n)`,
`cp.Parameter(shape=n)`); `multiply` is elementwise multiplication;
`klDiv` is the `cp.kl_div` atom; `sum` is `cp.sum`. -/
inductive Expr : Type where
  | var (id : Nat) (shape : Nat)
  | param (id : Nat) (shape : Nat)
  | const (c : ℚ)
  | add (e₁ e₂ : Expr)
  | sub (e₁ e₂ : Expr)
  | multiply (e₁ e₂ : Expr)
  | klDiv (e₁ e₂ : Expr)
  | sum (e : Expr)
deriving DecidableEq

/-- A cvxpy constraint: `e >= c` (elementwise) or `e == c`. -/
inductive Constraint : Type where
  | ge (lhs : Expr) (rhs : ℚ)
  | eq (lhs : Expr) (rhs : ℚ)
deriving DecidableEq

/-- The objective sense: the notebook only uses `cp.Minimize`. -/
inductive Objective : Type where
  | minimize (e : Expr)
deriving DecidableEq

/-- The problem object handed to `prob.solve()`: the objective, the
constraint list, and the numeric values stored in the two `cp.Parameter`
objects (`alpha.value = np.array(a_val)`, `beta.value = np.array(b_val)`). -/
structure Problem : Type where
  objective : Objective
  constraints : List Constraint
  alphaValue : List ℚ
  betaValue : List ℚ
deriving DecidableEq

/-- What the external solver reports back through the problem object after
`prob.solve()`: a status string (`prob.status`), the minimized objective
value (`prob.value`), and the optimal values of the two decision vectors
(`P.value`, `W.value`).  The solver is external to the notebook, so it is
modelled as an arbitrary function `Problem → SolveResult`. -/
structure SolveResult : Type where
  status : String
  value : ℚ
  Pval : List ℚ
  Wval : List ℚ
deriving DecidableEq

/-- A Python value appearing in the returned 4-tuple besides the status
string: the scalar `np.nan`, an ordinary scalar, or a numpy vector. -/
inductive NumVal : Type where
  | nan
  | scalar (x : ℚ)
  | vector (v : List ℚ)
deriving DecidableEq

/-- Observable side effects of a call to `optimal_power`, in order:
`printed s` models writing the line `s` to stdout; `varCreated k` and
`paramCreated k` model constructing a `cp.Variable(shape=k)` resp.
`cp.Parameter(shape=k)`; `problemCreated p` models `cp.Problem(...)`;
`solveCalled p` models the `prob.solve()` library call. -/
inductive Effect : Type where
  | printed (s : String)
  | varCreated (shape : Nat)
  | paramCreated (shape : Nat)
  | problemCreated (p : Problem)
  | solveCalled (p : Problem)
deriving DecidableEq

/-- The error message printed on the length-mismatch path. -/
def failMessage : String := "alpha and beta vectors must have same length!"

/-- The sentinel tuple returned on the length-mismatch path:
`('failed', np.nan, np.nan, np.nan)`. -/
def failureSentinel : String × NumVal × NumVal × NumVal :=
  ("failed", NumVal.nan, NumVal.nan, NumVal.nan)

/-- The problem object constructed by the body of `optimal_power` from
`a_val`, `b_val`, `P_tot`, `W_tot`, transcribing the notebook lines
building `P`, `W`, `alpha`, `beta`, `R`, `objective`, `constraints` and
`prob`.  Variable ids 0 and 1 are `P` and `W`; parameter ids 0 and 1 are
`alpha` and `beta`; all shapes are `n = len(a_val)`. -/
def builtProblem (a_val b_val : List ℚ) (P_tot W_tot : ℚ) : Problem :=
  let n := a_val.length
  let P := Expr.var 0 n
  let W := Expr.var 1 n
  let alpha := Expr.param 0 n
  let beta := Expr.param 1 n
  let R := Expr.sub
    (Expr.klDiv (Expr.multiply alpha W)
      (Expr.multiply alpha (Expr.add W (Expr.multiply beta P))))
    (Expr.multiply alpha (Expr.multiply beta P))
  ⟨Objective.minimize (Expr.sum R),
   [Constraint.ge P 0,
    Constraint.ge W 0,
    Constraint.eq (Expr.sub (Expr.sum P) (Expr.const P_tot)) 0,
    Constraint.eq (Expr.sub (Expr.sum W) (Expr.const W_tot)) 0],
   a_val, b_val⟩

/-- The function `optimal_power(n, a_val, b_val, P_tot, W_tot)` of the
notebook, parametrised by the external solver.  It returns the 4-tuple
`(status, utility, P, W)` together with the trace of its side effects.
The parameter `n` is shadowed by `n = len(a_val)` exactly as in the
source before any use. -/
def optimal_power (solver : Problem → SolveResult) (n : Nat)
    (a_val b_val : List ℚ) (P_tot W_tot : ℚ) :
    (String × NumVal × NumVal × NumVal) × List Effect :=
  let n := a_val.length
  if n ≠ b_val.length then
    (failureSentinel, [Effect.printed failMessage])
  else
    let prob := builtProblem a_val b_val P_tot W_tot
    let res := solver prob
    ((res.status, NumVal.scalar (-res.value), NumVal.vector res.Pval,
      NumVal.vector res.Wval),
     [Effect.varCreated n, Effect.varCreated n, Effect.paramCreated n,
      Effect.paramCreated n, Effect.problemCreated prob,
      Effect.solveCalled prob])

/-- A call `optimal_power(n, a_val, b_val)` that omits the last two
arguments: the source header gives the defaults `P_tot=1.0, W_tot=1.0`. -/
def optimal_power_defaults (solver : Problem → SolveResult) (n : Nat)
    (a_val b_val : List ℚ) :
    (String × NumVal × NumVal × NumVal) × List Effect :=
  optimal_power solver n a_val b_val 1.0 1.0

/-- A concrete solver used to instantiate theorems at concrete inputs. -/
def trivialSolver : Problem → SolveResult :=
  fun _ => ⟨"optimal", 0, [], []⟩

/-- Recognise a solver invocation in the effect trace. -/
def isSolveCall : Effect → Bool
  | Effect.solveCalled _ => true
  | _ => false

/-- The rate law stated in the notebook:
`R_i = α_i W_i log2(1 + β_i P_i / W_i)` (base-2 logarithm), per channel. -/
noncomputable def rate (a b W P : ℝ) : ℝ := a * W * Real.logb 2 (1 + b * P / W)

/-- The Kullback-Leibler divergence atom as documented in the notebook:
`kl_div(x, y) = x log(x/y) - x + y` with the natural logarithm. -/
noncomputable def kl_div (x y : ℝ) : ℝ := x * Real.log (x / y) - x + y

/-- The per-channel value of the expression the code builds as `R`:
`kl_div(α W, α (W + β P)) - α β P`. -/
noncomputable def klRate (a b W P : ℝ) : ℝ :=
  kl_div (a * W) (a * (W + b * P)) - a * b * P

theorem klRate_eq_neg_natlog (a b W P : ℝ) (ha : 0 < a) (hb : 0 < b)
    (hW : 0 < W) (hP : 0 < P) :
    klRate a b W P = -(a * W * Real.log (1 + b * P / W)) := by
  have hW0 : W ≠ 0 := ne_of_gt hW
  have hS : (0 : ℝ) < W + b * P := by positivity
  have hS0 : W + b * P ≠ 0 := ne_of_gt hS
  have hquot : a * W / (a * (W + b * P)) = W / (W + b * P) :=
    mul_div_mul_left W (W + b * P) (ne_of_gt ha)
  have harg : (1 : ℝ) + b * P / W = (W + b * P) / W := by
    field_simp
  unfold klRate kl_div
  rw [hquot, harg, Real.log_div hW0 hS0, Real.log_div hS0 hW0]
  ring

/-- The constraint list as the spec states it: `P ⪰ 0`, `W ⪰ 0`,
`Σ P_i = P_tot` (written `sum(P) - P_tot == 0`), `Σ W_i = W_tot`
(written `sum(W) - W_tot == 0`), over decision vectors of length `n`. -/
def specConstraints (n : Nat) (P_tot W_tot : ℚ) : List Constraint :=
  [Constraint.ge (Expr.var 0 n) 0,
   Constraint.ge (Expr.var 1 n) 0,
   Constraint.eq (Expr.sub (Expr.sum (Expr.var 0 n)) (Expr.const P_tot)) 0,
   Constraint.eq (Expr.sub (Expr.sum (Expr.var 1 n)) (Expr.const W_tot)) 0]

/-- The objective as the spec states it: minimize the sum over channels of
the reformulated `−R_i` terms
`kl_div(α_i W_i, α_i (W_i + β_i P_i)) − α_i β_i P_i`, with the elementwise
multiplications inside `kl_div`. -/
def specObjective (n : Nat) : Objective :=
  Objective.minimize (Expr.sum (Expr.sub
    (Expr.klDiv (Expr.multiply (Expr.param 0 n) (Expr.var 1 n))
      (Expr.multiply (Expr.param 0 n)
        (Expr.add (Expr.var 1 n) (Expr.multiply (Expr.param 1 n) (Expr.var 0 n)))))
    (Expr.multiply (Expr.param 0 n) (Expr.multiply (Expr.param 1 n) (Expr.var 0 n)))))

/-- Claim C1: the sentinel failure path is taken if and only if `a_val` and
`b_val` have different lengths; in that case the function returns
`('failed', NaN, NaN, NaN)` (and merely prints, it does not raise),
regardless of all other argument values, and for equal-length inputs the
failure path is never taken. -/
theorem C1_failure_path_iff (solver : Problem → SolveResult) (n : Nat)
    (a_val b_val : List ℚ) (P_tot W_tot : ℚ) :
    optimal_power solver n a_val b_val P_tot W_tot
        = (failureSentinel, [Effect.printed failMessage])
      ↔ a_val.length ≠ b_val.length := by
  unfold optimal_power
  by_cases h : a_val.length = b_val.length
  · simp [h, failureSentinel]
  · simp [h]

theorem C1_witness :
    optimal_power trivialSolver 2 [1] [] 1 1
      = (failureSentinel, [Effect.printed failMessage]) :=
  (C1_failure_path_iff trivialSolver 2 [1] [] 1 1).mpr (by decide)

/-- Claim C2 (counterexample): the stated identity
`−R = kl_div(α·W, α·(W+β·P)) − α·β·P` fails at the concrete positive input
`α = β = W = P = 1`: the kl_div expression there equals `−ln 2 ≈ −0.693`
while `−R = −log2(2) = −1`. -/
theorem C2_counterexample : klRate 1 1 1 1 ≠ -(rate 1 1 1 1) := by
  have h1 : klRate 1 1 1 1 = -Real.log 2 := by
    have h := klRate_eq_neg_natlog 1 1 1 1 one_pos one_pos one_pos one_pos
    norm_num at h
    exact h
  have h2 : rate 1 1 1 1 = 1 := by
    unfold rate
    norm_num
  rw [h1, h2]
  intro hcon
  have h3 : Real.log 2 = 1 := by linarith
  have h4 := Real.log_two_lt_d9
  rw [h3] at h4
  norm_num at h4

/-- Claim C2 (amended): for all positive reals α, β, W, P the kl_div-based
expression built in the code equals the negated per-channel rate taken with
the NATURAL logarithm, `−α·W·ln(1 + β·P/W)`; equivalently it equals
`ln 2` times the negated base-2 rate `−R`, not `−R` itself. -/
theorem C2_amended_identity (a b W P : ℝ) (ha : 0 < a) (hb : 0 < b)
    (hW : 0 < W) (hP : 0 < P) :
    klRate a b W P = -(a * W * Real.log (1 + b * P / W)) ∧
    klRate a b W P = Real.log 2 * -(rate a b W P) := by
  have h1 := klRate_eq_neg_natlog a b W P ha hb hW hP
  refine ⟨h1, ?_⟩
  have hlog2 : Real.log 2 ≠ 0 := ne_of_gt (Real.log_pos one_lt_two)
  rw [h1]
  unfold rate
  rw [Real.logb]
  field_simp
  ring

theorem C2_witness :
    (0 : ℝ) < 1 ∧
    (klRate 1 1 1 1 = -(1 * 1 * Real.log (1 + 1 * 1 / 1)) ∧
     klRate 1 1 1 1 = Real.log 2 * -(rate 1 1 1 1)) :=
  ⟨one_pos, C2_amended_identity 1 1 1 1 one_pos one_pos one_pos one_pos⟩

/-- Claim C3: for equal-length coefficient vectors, the problem handed to
the solver is a minimization whose objective is the sum of the reformulated
`−R_i` terms and whose constraints are exactly the four constraints
`P ⪰ 0`, `W ⪰ 0`, `sum(P) = P_tot`, `sum(W) = W_tot` — no more, no fewer. -/
theorem C3_problem_construction (solver : Problem → SolveResult) (n : Nat)
    (a_val b_val : List ℚ) (P_tot W_tot : ℚ)
    (h : a_val.length = b_val.length) :
    Effect.solveCalled (builtProblem a_val b_val P_tot W_tot)
        ∈ (optimal_power solver n a_val b_val P_tot W_tot).2 ∧
    (builtProblem a_val b_val P_tot W_tot).objective
        = specObjective a_val.length ∧
    (builtProblem a_val b_val P_tot W_tot).constraints
        = specConstraints a_val.length P_tot W_tot := by
  refine ⟨?_, rfl, rfl⟩
  unfold optimal_power
  simp [h]

theorem C3_witness :
    List.length [(1 : ℚ)] = List.length [(2 : ℚ)] ∧
    (Effect.solveCalled (builtProblem [1] [2] 1 1)
        ∈ (optimal_power trivialSolver 5 [1] [2] 1 1).2 ∧
     (builtProblem [1] [2] 1 1).objective = specObjective 1 ∧
     (builtProblem [1] [2] 1 1).constraints = specConstraints 1 1 1) :=
  ⟨rfl, C3_problem_construction trivialSolver 5 [1] [2] 1 1 rfl⟩

/-- Claim C4: on the non-failure path the returned 4-tuple is
`(status, utility, P, W)` where utility is the negation of the minimized
objective value reported by the solve step, and the third and fourth
components are the optimal power and bandwidth allocation vectors. -/
theorem C4_result_tuple (solver : Problem → SolveResult) (n : Nat)
    (a_val b_val : List ℚ) (P_tot W_tot : ℚ)
    (h : a_val.length = b_val.length) :
    (optimal_power solver n a_val b_val P_tot W_tot).1 =
      ((solver (builtProblem a_val b_val P_tot W_tot)).status,
       NumVal.scalar (-(solver (builtProblem a_val b_val P_tot W_tot)).value),
       NumVal.vector (solver (builtProblem a_val b_val P_tot W_tot)).Pval,
       NumVal.vector (solver (builtProblem a_val b_val P_tot W_tot)).Wval) := by
  unfold optimal_power
  simp [h]

theorem C4_witness :
    List.length [(1 : ℚ)] = List.length [(2 : ℚ)] ∧
    (optimal_power trivialSolver 5 [1] [2] 1 1).1 =
      ((trivialSolver (builtProblem [1] [2] 1 1)).status,
       NumVal.scalar (-(trivialSolver (builtProblem [1] [2] 1 1)).value),
       NumVal.vector (trivialSolver (builtProblem [1] [2] 1 1)).Pval,
       NumVal.vector (trivialSolver (builtProblem [1] [2] 1 1)).Wval) :=
  ⟨rfl, C4_result_tuple trivialSolver 5 [1] [2] 1 1 rfl⟩

/-- Claim C6: for equal-length inputs the status component is exactly the
status string the solver reports for the constructed problem, passed
through unmodified — this holds for every possible solver behaviour — and
the solver is invoked exactly once (no retry). -/
theorem C6_status_passthrough (solver : Problem → SolveResult) (n : Nat)
    (a_val b_val : List ℚ) (P_tot W_tot : ℚ)
    (h : a_val.length = b_val.length) :
    (optimal_power solver n a_val b_val P_tot W_tot).1.1
        = (solver (builtProblem a_val b_val P_tot W_tot)).status ∧
    (optimal_power solver n a_val b_val P_tot W_tot).2.filter isSolveCall
        = [Effect.solveCalled (builtProblem a_val b_val P_tot W_tot)] := by
  unfold optimal_power
  constructor <;> simp [h, isSolveCall]

theorem C6_witness :
    List.length [(1 : ℚ)] = List.length [(2 : ℚ)] ∧
    ((optimal_power trivialSolver 5 [1] [2] 1 1).1.1
        = (trivialSolver (builtProblem [1] [2] 1 1)).status ∧
     (optimal_power trivialSolver 5 [1] [2] 1 1).2.filter isSolveCall
        = [Effect.solveCalled (builtProblem [1] [2] 1 1)]) :=
  ⟨rfl, C6_status_passthrough trivialSolver 5 [1] [2] 1 1 rfl⟩

/-- Claim C7: `P_tot` and `W_tot` default to 1.0, so a call that omits them
returns the same result as a call passing 1.0 explicitly for both. -/
theorem C7_default_totals (solver : Problem → SolveResult) (n : Nat)
    (a_val b_val : List ℚ) :
    optimal_power_defaults solver n a_val b_val
      = optimal_power solver n a_val b_val 1.0 1.0 := rfl

/-- Claim C9: the `n` argument is ignored — it is rebound to `len(a_val)`
before any use, so two calls differing only in `n` return identical
results (and identical effect traces, hence identical constructed
problems); the effective problem size is always `len(a_val)`. -/
theorem C9_n_argument_ignored (solver : Problem → SolveResult)
    (n₁ n₂ : Nat) (a_val b_val : List ℚ) (P_tot W_tot : ℚ) :
    optimal_power solver n₁ a_val b_val P_tot W_tot
        = optimal_power solver n₂ a_val b_val P_tot W_tot ∧
    (a_val.length = b_val.length →
      Effect.varCreated a_val.length
        ∈ (optimal_power solver n₁ a_val b_val P_tot W_tot).2) := by
  refine ⟨rfl, fun h => ?_⟩
  unfold optimal_power
  simp [h]

theorem C9_witness :
    optimal_power trivialSolver 0 [1] [2] 1 1
        = optimal_power trivialSolver 7 [1] [2] 1 1 ∧
    Effect.varCreated 1 ∈ (optimal_power trivialSolver 0 [1] [2] 1 1).2 :=
  ⟨(C9_n_argument_ignored trivialSolver 0 7 [1] [2] 1 1).1,
   (C9_n_argument_ignored trivialSolver 0 7 [1] [2] 1 1).2 rfl⟩

/-- Claim C10: on the length-mismatch path the only effect is the printed
message — no variable, parameter or problem object is constructed and the
solver is never invoked — and the returned placeholders are single scalar
NaN values (the `NumVal.nan` constructor), not NaN-filled vectors. -/
theorem C10_failure_path_minimal (solver : Problem → SolveResult) (n : Nat)
    (a_val b_val : List ℚ) (P_tot W_tot : ℚ)
    (h : a_val.length ≠ b_val.length) :
    (optimal_power solver n a_val b_val P_tot W_tot).2
        = [Effect.printed failMessage] ∧
    (∀ p, Effect.solveCalled p
        ∉ (optimal_power solver n a_val b_val P_tot W_tot).2) ∧
    (∀ k, Effect.varCreated k
        ∉ (optimal_power solver n a_val b_val P_tot W_tot).2) ∧
    (∀ k, Effect.paramCreated k
        ∉ (optimal_power solver n a_val b_val P_tot W_tot).2) ∧
    (∀ p, Effect.problemCreated p
        ∉ (optimal_power solver n a_val b_val P_tot W_tot).2) ∧
    (optimal_power solver n a_val b_val P_tot W_tot).1 = failureSentinel ∧
    (∀ v, NumVal.nan ≠ NumVal.vector v) := by
  unfold optimal_power
  simp [h, failureSentinel]

theorem C10_witness :
    List.length [(1 : ℚ)] ≠ List.length ([] : List ℚ) ∧
    ((optimal_power trivialSolver 3 [1] [] 1 1).2
        = [Effect.printed failMessage] ∧
     (∀ p, Effect.solveCalled p ∉ (optimal_power trivialSolver 3 [1] [] 1 1).2) ∧
     (∀ k, Effect.varCreated k ∉ (optimal_power trivialSolver 3 [1] [] 1 1).2) ∧
     (∀ k, Effect.paramCreated k ∉ (optimal_power trivialSolver 3 [1] [] 1 1).2) ∧
     (∀ p, Effect.problemCreated p ∉ (optimal_power trivialSolver 3 [1] [] 1 1).2) ∧
     (optimal_power trivialSolver 3 [1] [] 1 1).1 = failureSentinel ∧
     (∀ v, NumVal.nan ≠ NumVal.vector v)) :=
  ⟨by decide, C10_failure_path_minimal trivialSolver 3 [1] [] 1 1 (by decide)⟩

/-- Claim C5 (counterexample): the length-mismatch path DOES perform I/O of
its own: it prints the error message to stdout, as this concrete
mismatched call shows. -/
theorem C5_counterexample :
    Effect.printed failMessage
      ∈ (optimal_power trivialSolver 1 [1] [] 1 1).2 := by
  unfold optimal_power
  simp

/-- Claim C5 (amended): on the equal-length path the function performs no
I/O — its effects are exactly constructing the two variables, the two
parameters and the problem object and the single solve call — while on the
length-mismatch path its only side effect is printing one error message. -/
theorem C5_amended_effects (solver : Problem → SolveResult) (n : Nat)
    (a_val b_val : List ℚ) (P_tot W_tot : ℚ) :
    (a_val.length = b_val.length →
      (optimal_power solver n a_val b_val P_tot W_tot).2 =
        [Effect.varCreated a_val.length, Effect.varCreated a_val.length,
         Effect.paramCreated a_val.length, Effect.paramCreated a_val.length,
         Effect.problemCreated (builtProblem a_val b_val P_tot W_tot),
         Effect.solveCalled (builtProblem a_val b_val P_tot W_tot)]) ∧
    (a_val.length ≠ b_val.length →
      (optimal_power solver n a_val b_val P_tot W_tot).2
        = [Effect.printed failMessage]) := by
  constructor <;> intro h <;> unfold optimal_power <;> simp [h]

theorem C5_amended_witness :
    (optimal_power trivialSolver 1 [1] [2] 1 1).2 =
      [Effect.varCreated 1, Effect.varCreated 1, Effect.paramCreated 1,
       Effect.paramCreated 1, Effect.problemCreated (builtProblem [1] [2] 1 1),
       Effect.solveCalled (builtProblem [1] [2] 1 1)] :=
  (C5_amended_effects trivialSolver 1 [1] [2] 1 1).1 rfl
